import Mathlib

/-!
Verification of the core analysis pipeline of the YouTube video analyzer
(`src/services/analysis_service.py` and `src/services/youtube_service.py`).

Python strings are modelled as `List Char` (`PyStr`); `len` is `List.length`,
slicing `s[:n]` is `List.take n`, and `str.strip()` drops leading/trailing
whitespace.  Python's `\s` also matches some Unicode whitespace; the ASCII
whitespace characters are modelled.  Exceptions derived from Python's
`Exception` are modelled as `Except PyStr` values carrying `str(e)`;
process-level control-flow signals (`KeyboardInterrupt`, `SystemExit`) are out
of scope.  External backends (the LangChain YouTube loader, the Ollama chat
model, and `json.loads`) are parameters of the embedded functions, so theorems
quantify over every backend behaviour.
-/

abbrev PyStr := List Char

/-- Coerce a Lean string literal to the `PyStr` model. -/
def pyStr (s : String) : PyStr := s.data

/-- Python `\s` on the ASCII range: space, tab, newline, carriage return,
vertical tab, form feed. -/
def isPySpace (c : Char) : Bool :=
  c = ' ' || c = '\t' || c = '\n' || c = '\r' || c = '\x0b' || c = '\x0c'

/-- Sentence-terminal punctuation from the regex `(?<=[.!?])\s+`. -/
def isSentEnd (c : Char) : Bool :=
  c = '.' || c = '!' || c = '?'

/-- Python `str.strip()`: drop leading and trailing whitespace. -/
def pyStrip (s : PyStr) : PyStr :=
  ((s.dropWhile isPySpace).reverse.dropWhile isPySpace).reverse

/-- Head of the reversed accumulator is the character immediately before the
current scan position; the lookbehind `(?<=[.!?])` tests it. -/
def sentEndHead (acc : PyStr) : Bool :=
  match acc with
  | p :: _ => isSentEnd p
  | [] => false

/-- State machine for `re.split(r"(?<=[.!?])\s+", text)`.
`sep = false`: accumulating a piece in `acc` (reversed); a whitespace
character preceded by `[.!?]` starts a separator, emitting the piece.
`sep = true`: inside a separator run (`\s+` is greedy); the first
non-whitespace character starts the next piece.  Reaching the end of input
emits the final (possibly empty) piece, as `re.split` does. -/
def reSplitAux : Bool → PyStr → PyStr → List PyStr
  | _, acc, [] => [acc.reverse]
  | true, acc, c :: rest =>
    if isPySpace c then reSplitAux true acc rest
    else reSplitAux false [c] rest
  | false, acc, c :: rest =>
    if sentEndHead acc && isPySpace c then
      acc.reverse :: reSplitAux true [] rest
    else
      reSplitAux false (c :: acc) rest

/-- Model of `re.split(r"(?<=[.!?])\s+", text)` from `_split_transcript`. -/
def re_split_sentences (text : PyStr) : List PyStr :=
  reSplitAux false [] text

/-- Model of `TranscriptChunk` from `models/schemas.py`. -/
structure TranscriptChunk where
  index : Nat
  text : PyStr
deriving DecidableEq, Repr

/-- The accumulation loop of `_split_transcript`: greedily join sentences into
`current` while `len(current) + len(s) <= max_len`; otherwise flush the
non-empty `current` as a chunk and restart from `s`.  The Python `else` branch
(`if current: append, idx += 1` then `current = s`) is rendered as the two
final cases. -/
def split_loop (max_len : Nat) : List PyStr → PyStr → Nat → List TranscriptChunk
  | [], current, idx =>
    if current = [] then [] else [⟨idx, current⟩]
  | s :: rest, current, idx =>
    if current.length + s.length ≤ max_len then
      split_loop max_len rest (current ++ (if current = [] then [] else [' ']) ++ s) idx
    else if current = [] then
      split_loop max_len rest s idx
    else
      ⟨idx, current⟩ :: split_loop max_len rest s (idx + 1)

/-- Model of `AnalysisService._split_transcript(text, max_len)` (default `max_len=400`;
`analyze` calls it with 350). -/
def split_transcript (text : PyStr) (max_len : Nat) : List TranscriptChunk :=
  split_loop max_len (re_split_sentences (pyStrip text)) [] 0

/-- The last character is not whitespace. -/
def noTrailSpace (cs : PyStr) : Prop :=
  ∀ c, cs.getLast? = some c → isPySpace c = false

/-- Single-space rejoining of pieces, mirroring how `current` accumulates
sentences with `" "` between them. -/
def joinSp : List PyStr → PyStr
  | [] => []
  | [x] => x
  | x :: xs => x ++ ' ' :: joinSp xs

/-! ## YouTube service (`youtube_service.py`) -/

/-- Characters excluded by the capture group `([^&/\?\n]+)`. -/
def videoIdStop (c : Char) : Bool :=
  c = '&' || c = '/' || c = '?' || c = '\n'

/-- Try to match one alternative `marker` at the current position and capture
the following maximal non-empty run of non-delimiter characters; the regex
match fails at this position if the run would be empty. -/
def captureAt (marker : PyStr) (s : PyStr) : Option PyStr :=
  if marker.isPrefixOf s then
    let cap := (s.drop marker.length).takeWhile (fun c => !videoIdStop c)
    if cap = [] then none else some cap
  else none

/-- Scanning of `re.search`: try each alternative at each position, left to
right, alternatives in written order. -/
def searchCapture (alts : List PyStr) : PyStr → Option PyStr
  | [] => none
  | s@(_ :: rest) =>
    match alts.findSome? (fun m => captureAt m s) with
    | some cap => some cap
    | none => searchCapture alts rest

/-- Model of `YouTubeService.extract_video_id`: the three patterns tried in order;
the first pattern is an alternation of the watch-URL and short-URL forms. -/
def extract_video_id (url : PyStr) : Option PyStr :=
  match searchCapture [pyStr "youtube.com/watch?v=", pyStr "youtu.be/"] url with
  | some v => some v
  | none =>
    match searchCapture [pyStr "youtube.com/embed/"] url with
    | some v => some v
    | none => searchCapture [pyStr "youtube.com/v/"] url

/-- Model of `YouTubeService.clean_youtube_url`. -/
def clean_youtube_url (url : PyStr) : PyStr :=
  match extract_video_id url with
  | some vid => pyStr "https://www.youtube.com/watch?v=" ++ vid
  | none => url

/-- A LangChain `Document`: `page_content` plus the metadata fields the
service reads (`metadata.get("title")`, `metadata.get("author")`); a missing
key is `none`. -/
structure Doc where
  page_content : PyStr
  title : Option PyStr
  author : Option PyStr
deriving DecidableEq, Repr

/-- The dict returned by `get_transcript_async`.  Each field is `none` when
the corresponding key is absent from the literal the code returns. -/
structure TranscriptDict where
  success : Bool
  transcript : Option PyStr
  video_title : Option PyStr
  author : Option PyStr
  video_id : Option PyStr
  error : Option PyStr
deriving DecidableEq, Repr

def unknownStr : PyStr := pyStr "Unknown"

/-- Model of `YouTubeService.get_transcript_async(url)`.  The two loader calls
(`add_video_info=True` and `add_video_info=False`) are the parameters
`richLoad` and `plainLoad`, each applied to the cleaned URL and either
returning a document list or raising (`Except.error` carries `str(e)`).
The first `try` falls through to the second both when the rich load raises
and when it returns no documents; in the second `try`, a raise produces the
failure dict with `transcript=""` and `title/author="Unknown"`, while an
empty document list reaches the final `return` with only `success`/`error`
keys.  The function itself is total: it never raises. -/
def get_transcript_async (richLoad plainLoad : PyStr → Except PyStr (List Doc))
    (url : PyStr) : TranscriptDict :=
  let cleaned := clean_youtube_url url
  match richLoad cleaned with
  | .ok (d :: _) =>
    { success := true
      transcript := some (pyStrip d.page_content)
      video_title := some (d.title.getD unknownStr)
      author := some (d.author.getD unknownStr)
      video_id := extract_video_id url
      error := none }
  | _ =>
    match plainLoad cleaned with
    | .ok (d :: _) =>
      { success := true
        transcript := some (pyStrip d.page_content)
        video_title := some unknownStr
        author := some unknownStr
        video_id := extract_video_id url
        error := none }
    | .error e =>
      { success := false
        transcript := some []
        video_title := some unknownStr
        author := some unknownStr
        video_id := none
        error := some (pyStr "Failed to load transcript: " ++ e) }
    | .ok [] =>
      { success := false
        transcript := none
        video_title := none
        author := none
        video_id := none
        error := some (pyStr "Transcript not found") }

/-! ## JSON values and `_extract_json` -/

/-- Values produced by `json.loads`.  Objects are association lists; since
`json.loads` never yields duplicate keys, first-match lookup models dict
access. -/
inductive JsonVal where
  | null
  | bool (b : Bool)
  | num (n : Int)
  | str (s : PyStr)
  | arr (elts : List JsonVal)
  | obj (fields : List (PyStr × JsonVal))

/-- The `TypeError` message raised by `re.findall(pattern)` when the required
`string` argument is missing (Python quotation marks elided). -/
def tyFindallMsg : PyStr :=
  pyStr "findall() missing 1 required positional argument: string"

/-- Model of `AnalysisService._extract_json(text)`, with `json.loads` as the parameter
`jsonLoads` (`none` models a raised `JSONDecodeError`/`TypeError`).  The code
is

    try: return json.loads(text)
    except Exception: pass
    json_blocks = re.findall(r"...(.*?)...")   -- no string argument!
    ...

`re.findall` is invoked without its `string` argument and that call is outside
any `try`, so whenever the direct parse fails the function raises `TypeError`
unconditionally; the fenced-block stage, the brace-scan stage and the final
degraded-structure fallback are unreachable dead code. -/
def extract_json (jsonLoads : PyStr → Option JsonVal) (text : PyStr) :
    Except PyStr JsonVal :=
  match jsonLoads text with
  | some v => .ok v
  | none => .error tyFindallMsg

/-! ## Pydantic conversion helpers used by `analyze` -/

def validationMsg : PyStr := pyStr "ValidationError: invalid fields"
def mappingMsg : PyStr := pyStr "TypeError: argument after ** must be a mapping"
def iterMsg : PyStr := pyStr "TypeError: object is not iterable"
def attrGetMsg : PyStr := pyStr "AttributeError: object has no attribute get"

/-- Model of `Topic` from `models/schemas.py` (`name`: 2-100 chars, `description`:
5-500 chars). -/
structure Topic where
  name : PyStr
  description : PyStr
deriving DecidableEq, Repr

/-- Model of `Insight` from `models/schemas.py` (`content`: 5-500 chars, `type`:
unconstrained string). -/
structure Insight where
  content : PyStr
  type : PyStr
deriving DecidableEq, Repr

/-- Model of `parsed.get(key, default)`: attribute access on a non-dict raises
`AttributeError`.  Error-message constants abbreviate the CPython/pydantic
text; only their non-emptiness matters to the theorems below. -/
def pyGet (v : JsonVal) (key : PyStr) (dflt : JsonVal) : Except PyStr JsonVal :=
  match v with
  | .obj kvs => .ok ((kvs.lookup key).getD dflt)
  | _ => .error attrGetMsg

/-- Model of `Topic(**t)`: requires a mapping with string `name`/`description` of valid
lengths (pydantic ignores extra keys by default). -/
def mkTopic (v : JsonVal) : Except PyStr Topic :=
  match v with
  | .obj kvs =>
    match kvs.lookup (pyStr "name"), kvs.lookup (pyStr "description") with
    | some (.str n), some (.str d) =>
      if 2 ≤ n.length ∧ n.length ≤ 100 ∧ 5 ≤ d.length ∧ d.length ≤ 500 then
        .ok ⟨n, d⟩
      else .error validationMsg
    | _, _ => .error validationMsg
  | _ => .error mappingMsg

/-- Model of `Insight(**i)`: requires a mapping with string `content` (5-500 chars)
and string `type`. -/
def mkInsight (v : JsonVal) : Except PyStr Insight :=
  match v with
  | .obj kvs =>
    match kvs.lookup (pyStr "content"), kvs.lookup (pyStr "type") with
    | some (.str c), some (.str ty) =>
      if 5 ≤ c.length ∧ c.length ≤ 500 then .ok ⟨c, ty⟩
      else .error validationMsg
    | _, _ => .error validationMsg
  | _ => .error mappingMsg

/-- Model of `[f(**x) for x in v]`: iterating a list maps `f`; iterating an empty
string or empty dict yields no elements; iterating a non-empty string or dict
feeds non-mapping elements (characters resp. keys) to `f`, a `TypeError`;
numbers, booleans and `None` are not iterable. -/
def pyIterMap {α : Type} (f : JsonVal → Except PyStr α) :
    JsonVal → Except PyStr (List α)
  | .arr elts => elts.mapM f
  | .str [] => .ok []
  | .str (_ :: _) => .error mappingMsg
  | .obj [] => .ok []
  | .obj (_ :: _) => .error mappingMsg
  | _ => .error iterMsg

/-! ## Analysis orchestrator (`analysis_service.py`, `analyze`) -/

/-- Model of `VideoMetadata` from `models/schemas.py` (all fields optional). -/
structure VideoMetadata where
  title : Option PyStr
  author : Option PyStr
  video_id : Option PyStr
deriving DecidableEq, Repr

/-- Model of `AnalysisResponse` from `models/schemas.py`.  `processing_time` is
measured wall-clock time; it is modelled as an abstract tick count injected
by `analyze` below. -/
structure AnalysisResponse where
  success : Bool
  transcript_chunks : List TranscriptChunk
  topics : List Topic
  insights : List Insight
  summary : PyStr
  processing_time : Nat
  metadata : Option VideoMetadata
  error : Option PyStr
deriving DecidableEq, Repr

/-- Model of `AnalysisType` from `models/schemas.py`. -/
inductive AnalysisType where
  | full
  | summary_only
  | topics_only
  | insights_only
deriving DecidableEq, Repr

def noSummaryDefault : PyStr := pyStr "No summary available"

/-- Model of `parsed.get("summary", "No summary available")` followed by the pydantic
validation of `AnalysisResponse.summary : str` (a non-string raises when the
response is constructed; the raise is reordered before chunking here, which
is unobservable because both orders reach the same `except` handler). -/
def getSummary (parsed : JsonVal) : Except PyStr PyStr :=
  match pyGet parsed (pyStr "summary") (.str noSummaryDefault) with
  | .error e => .error e
  | .ok (.str s) => .ok s
  | .ok _ => .error validationMsg

/-- The slice `video_data["transcript"][:6000]` ("Safety limit for LLM"). -/
def truncateForLLM (transcript : PyStr) : PyStr := transcript.take 6000

def keyTranscriptMsg : PyStr := pyStr "KeyError: transcript"

/-- The body of the `try` block of `AnalysisService.analyze`: any raise inside
it is an `Except.error` carrying the exception message.  `llm` models the
chain `self.analysis_prompt | self.llm` applied to the transcript slot of the
fixed prompt template (the template text is a constant context, so the chain
is a function of the substituted transcript); `jsonLoads` models `json.loads`.
The non-raising early return for a failed transcript fetch is an `Except.ok`
with `success := false`. -/
def analyzeBody (richLoad plainLoad : PyStr → Except PyStr (List Doc))
    (llm : PyStr → Except PyStr PyStr) (jsonLoads : PyStr → Option JsonVal)
    (youtube_url : PyStr) : Except PyStr AnalysisResponse :=
  let video_data := get_transcript_async richLoad plainLoad youtube_url
  if video_data.success = false then
    .ok { success := false, transcript_chunks := [], topics := [], insights := [],
          summary := [], processing_time := 0, metadata := none,
          error := some (video_data.error.getD (pyStr "Unknown error")) }
  else
    match video_data.transcript with
    | none => .error keyTranscriptMsg
    | some fullTranscript =>
      let transcript := truncateForLLM fullTranscript
      let metadata : VideoMetadata :=
        { title := video_data.video_title
          author := video_data.author
          video_id := video_data.video_id }
      match llm transcript with
      | .error e => .error e
      | .ok raw_output =>
        match extract_json jsonLoads raw_output with
        | .error e => .error e
        | .ok parsed =>
          match pyGet parsed (pyStr "topics") (.arr []) with
          | .error e => .error e
          | .ok topicsVal =>
            match pyIterMap mkTopic topicsVal with
            | .error e => .error e
            | .ok topics =>
              match pyGet parsed (pyStr "insights") (.arr []) with
              | .error e => .error e
              | .ok insightsVal =>
                match pyIterMap mkInsight insightsVal with
                | .error e => .error e
                | .ok insights =>
                  match getSummary parsed with
                  | .error e => .error e
                  | .ok summary =>
                    let transcript_chunks := split_transcript transcript 350
                    .ok { success := true
                          transcript_chunks := transcript_chunks
                          topics := topics
                          insights := insights
                          summary := summary
                          processing_time := 0
                          metadata := some metadata
                          error := none }

/-- The `try`/`except Exception` boundary of `analyze`: a raised exception is
converted to the failure response with `error = str(e)`. -/
def analyzeResult (richLoad plainLoad : PyStr → Except PyStr (List Doc))
    (llm : PyStr → Except PyStr PyStr) (jsonLoads : PyStr → Option JsonVal)
    (youtube_url : PyStr) : AnalysisResponse :=
  match analyzeBody richLoad plainLoad llm jsonLoads youtube_url with
  | .ok r => r
  | .error e =>
    { success := false, transcript_chunks := [], topics := [], insights := [],
      summary := [], processing_time := 0, metadata := none, error := some e }

/-- Model of `AnalysisService.analyze(youtube_url, mode)`.  `mode` is the
`AnalysisType` parameter (defaulting to `full` in the source); the body never
reads it.  `elapsed` is the measured `time.time() - start_time`, set on every
return path; it is the one impure quantity, injected here so that the rest of
the computation is the pure `analyzeResult`.  The function is total: no
exception propagates to the caller. -/
def analyze (richLoad plainLoad : PyStr → Except PyStr (List Doc))
    (llm : PyStr → Except PyStr PyStr) (jsonLoads : PyStr → Option JsonVal)
    (youtube_url : PyStr) (mode : AnalysisType) (elapsed : Nat) : AnalysisResponse :=
  { analyzeResult richLoad plainLoad llm jsonLoads youtube_url with
    processing_time := elapsed }

/-! ## Predicates and concrete scenarios used by the theorems -/

/-- The expected output shape: a JSON object with a topics array, an insights
array and a summary string. -/
def expectedShape (v : JsonVal) : Prop :=
  ∃ kvs, v = JsonVal.obj kvs ∧
    (∃ ts, kvs.lookup (pyStr "topics") = some (JsonVal.arr ts)) ∧
    (∃ ins, kvs.lookup (pyStr "insights") = some (JsonVal.arr ins)) ∧
    (∃ s, kvs.lookup (pyStr "summary") = some (JsonVal.str s))

/-- A loader attempt fails when it raises or returns no documents (both make
`get_transcript_async` fall past its `if docs:` guard). -/
def loaderFails (r : Except PyStr (List Doc)) : Prop :=
  r = .ok [] ∨ ∃ e, r = .error e

/-- A `json.loads` behaviour that fails on every input. -/
def noLoads : PyStr → Option JsonVal := fun _ => none

def sampleShaped : JsonVal :=
  JsonVal.obj [(pyStr "topics", JsonVal.arr []), (pyStr "insights", JsonVal.arr []),
               (pyStr "summary", JsonVal.str (pyStr "S"))]

/-- A `json.loads` behaviour that parses exactly the raw output "RAW". -/
def sampleLoads : PyStr → Option JsonVal :=
  fun s => if s = pyStr "RAW" then some sampleShaped else none

def innerRaw : PyStr := pyStr "\x7b\"summary\": \"S\"\x7d"
def fencedRaw : PyStr := pyStr "```json\n\x7b\"summary\": \"S\"\x7d\n```"
def innerVal : JsonVal := JsonVal.obj [(pyStr "summary", JsonVal.str (pyStr "S"))]

/-- A `json.loads` behaviour that parses the bare object but (like the real
`json.loads`) rejects the markdown-fenced wrapping of the same object. -/
def fencedLoads : PyStr → Option JsonVal :=
  fun s => if s = innerRaw then some innerVal else none

def docHello : Doc :=
  { page_content := pyStr "Hello there. This is a talk about AI."
    title := some (pyStr "T"), author := some (pyStr "A") }

/-- A loader behaviour that returns one document. -/
def richOk : PyStr → Except PyStr (List Doc) := fun _ => .ok [docHello]

/-- A loader behaviour that raises. -/
def loadBoom : PyStr → Except PyStr (List Doc) := fun _ => .error (pyStr "no captions")

/-- A model backend that raises with message "boom". -/
def llmBoom : PyStr → Except PyStr PyStr := fun _ => .error (pyStr "boom")

/-- A model backend that raises an exception whose message is empty
(`str(Exception()) == ""`). -/
def llmEmptyErr : PyStr → Except PyStr PyStr := fun _ => .error []

def urlW : PyStr := pyStr "https://youtu.be/abc123"

/-! ## Claim theorems -/

/-- Claim C8 (confirmed): for every raw output that `json.loads` parses to a
value of the expected shape, `_extract_json` returns exactly that directly
parsed value: the direct-parse stage short-circuits the rest, so extraction
is byte-for-byte the direct parse. -/
theorem c8_direct_parse (jsonLoads : PyStr → Option JsonVal) (rawOutput : PyStr)
    (v : JsonVal) (hshape : expectedShape v) (hparse : jsonLoads rawOutput = some v) :
    extract_json jsonLoads rawOutput = .ok v := by
  simp [extract_json, hparse]

theorem c8_witness : extract_json sampleLoads (pyStr "RAW") = .ok sampleShaped :=
  c8_direct_parse sampleLoads (pyStr "RAW") sampleShaped
    ⟨_, rfl, ⟨[], rfl⟩, ⟨[], rfl⟩, ⟨pyStr "S", rfl⟩⟩ rfl

/-- Claim C1 (code_bug): the claim says `_extract_json` never raises and falls
back to `{topics: [], insights: [], summary: text[:300]}` when all parse
stages fail.  In the code, as soon as the direct `json.loads` fails, the next
statement `re.findall(r"...")` is called without its required `string`
argument and raises `TypeError` outside any `try`; the fallback stages are
unreachable.  This theorem evaluates the embedded code at any such input:
extraction raises instead of returning the degraded structure. -/
theorem c1_extract_json_raises (jsonLoads : PyStr → Option JsonVal)
    (rawOutput : PyStr) (hfail : jsonLoads rawOutput = none) :
    extract_json jsonLoads rawOutput = .error tyFindallMsg := by
  simp [extract_json, hfail]

theorem c1_witness :
    extract_json noLoads (pyStr "unparseable prose, not JSON") = .error tyFindallMsg :=
  c1_extract_json_raises noLoads (pyStr "unparseable prose, not JSON") rfl

/-- Claim C7 (code_bug): the claim says extracting a fenced ```json block yields
the same record as extracting the fenced contents directly.  Direct extraction
of the contents succeeds (direct-parse stage), but on the fenced raw output
the direct parse fails and the broken `re.findall` call raises `TypeError`
before the fenced-block stage can run, so the two extractions differ for
every fenced input. -/
theorem c7_fenced_block_raises (jsonLoads : PyStr → Option JsonVal)
    (inner fenced : PyStr) (v : JsonVal)
    (hinner : jsonLoads inner = some v) (hfenced : jsonLoads fenced = none) :
    extract_json jsonLoads inner = .ok v ∧
    extract_json jsonLoads fenced = .error tyFindallMsg := by
  constructor <;> simp [extract_json, hinner, hfenced]

theorem c7_witness :
    extract_json fencedLoads innerRaw = .ok innerVal ∧
    extract_json fencedLoads fencedRaw = .error tyFindallMsg :=
  c7_fenced_block_raises fencedLoads innerRaw fencedRaw innerVal
    (by simp [fencedLoads])
    (by simp only [fencedLoads]; rw [if_neg (by decide)])

/-- Claim C2 (confirmed): `analyze` is a total function of the backend
behaviours (it never propagates an exception), and whenever the pipeline body
raises — any loader, model, parse or validation exception, with any message —
the returned result is the failure record with `success = false` and the
exception's message as `error`. -/
theorem c2_no_exception_escapes
    (richLoad plainLoad : PyStr → Except PyStr (List Doc))
    (llm : PyStr → Except PyStr PyStr) (jsonLoads : PyStr → Option JsonVal)
    (youtube_url : PyStr) (mode : AnalysisType) (elapsed : Nat) (e : PyStr)
    (hraise : analyzeBody richLoad plainLoad llm jsonLoads youtube_url = .error e) :
    analyze richLoad plainLoad llm jsonLoads youtube_url mode elapsed =
      { success := false, transcript_chunks := [], topics := [], insights := [],
        summary := [], processing_time := elapsed, metadata := none,
        error := some e } := by
  simp [analyze, analyzeResult, hraise]

theorem c2_witness :
    analyze richOk richOk llmBoom noLoads urlW AnalysisType.full 3 =
      { success := false, transcript_chunks := [], topics := [], insights := [],
        summary := [], processing_time := 3, metadata := none,
        error := some (pyStr "boom") } :=
  c2_no_exception_escapes richOk richOk llmBoom noLoads urlW
    AnalysisType.full 3 (pyStr "boom") rfl

/-- Claim C10 (confirmed): the `mode` argument is never read by `analyze`: for
any URL and any fixed backend behaviours, two calls with different modes (and
different measured times) agree on every field except `processing_time`. -/
theorem c10_mode_no_influence
    (richLoad plainLoad : PyStr → Except PyStr (List Doc))
    (llm : PyStr → Except PyStr PyStr) (jsonLoads : PyStr → Option JsonVal)
    (youtube_url : PyStr) (m1 m2 : AnalysisType) (t1 t2 : Nat) :
    (analyze richLoad plainLoad llm jsonLoads youtube_url m1 t1).success =
      (analyze richLoad plainLoad llm jsonLoads youtube_url m2 t2).success ∧
    (analyze richLoad plainLoad llm jsonLoads youtube_url m1 t1).transcript_chunks =
      (analyze richLoad plainLoad llm jsonLoads youtube_url m2 t2).transcript_chunks ∧
    (analyze richLoad plainLoad llm jsonLoads youtube_url m1 t1).topics =
      (analyze richLoad plainLoad llm jsonLoads youtube_url m2 t2).topics ∧
    (analyze richLoad plainLoad llm jsonLoads youtube_url m1 t1).insights =
      (analyze richLoad plainLoad llm jsonLoads youtube_url m2 t2).insights ∧
    (analyze richLoad plainLoad llm jsonLoads youtube_url m1 t1).summary =
      (analyze richLoad plainLoad llm jsonLoads youtube_url m2 t2).summary ∧
    (analyze richLoad plainLoad llm jsonLoads youtube_url m1 t1).metadata =
      (analyze richLoad plainLoad llm jsonLoads youtube_url m2 t2).metadata ∧
    (analyze richLoad plainLoad llm jsonLoads youtube_url m1 t1).error =
      (analyze richLoad plainLoad llm jsonLoads youtube_url m2 t2).error :=
  ⟨rfl, rfl, rfl, rfl, rfl, rfl, rfl⟩

/-- Claim C9 (confirmed): the text substituted into the model prompt is the
deterministic slice `transcript[:6000]`: it is a prefix of the retrieved
transcript (appending the dropped suffix restores it), its length is at most
6000, transcripts of at most 6000 characters pass through unchanged, and the
pipeline body depends on the model backend only through its value at these
truncated prompts — truncation is silent, never an error path. -/
theorem c9_prompt_truncation (t : PyStr) :
    truncateForLLM t ++ t.drop 6000 = t ∧
    (truncateForLLM t).length ≤ 6000 ∧
    (t.length ≤ 6000 → truncateForLLM t = t) ∧
    (∀ (richLoad plainLoad : PyStr → Except PyStr (List Doc))
       (llm1 llm2 : PyStr → Except PyStr PyStr)
       (jsonLoads : PyStr → Option JsonVal) (youtube_url : PyStr),
       (∀ s, llm1 (truncateForLLM s) = llm2 (truncateForLLM s)) →
       analyzeBody richLoad plainLoad llm1 jsonLoads youtube_url =
         analyzeBody richLoad plainLoad llm2 jsonLoads youtube_url) := by
  refine ⟨List.take_append_drop 6000 t, ?_, ?_, ?_⟩
  · simpa [truncateForLLM] using Nat.min_le_left 6000 t.length
  · intro h
    simpa [truncateForLLM] using List.take_of_length_le h
  · intro richLoad plainLoad llm1 llm2 jsonLoads youtube_url h
    unfold analyzeBody
    dsimp only
    split
    · rfl
    · split
      · rfl
      · rw [h]

theorem c9_witness : truncateForLLM (pyStr "short transcript.") = pyStr "short transcript." :=
  (c9_prompt_truncation (pyStr "short transcript.")).2.2.1 (by decide)

/-- Claim C4 (confirmed): `get_transcript_async` is a total function of the
loader behaviours (never raises); when the rich fetch fails (raises or yields
no documents) and the plain fetch yields a document, the result is
`success=true` with the plain document's stripped transcript and the sentinel
"Unknown" as title and author; when both attempts fail, the result is
`success=false` with a non-empty descriptive error message. -/
theorem c4_retriever_fallback
    (richLoad plainLoad : PyStr → Except PyStr (List Doc)) (url : PyStr) :
    (∀ d ds, loaderFails (richLoad (clean_youtube_url url)) →
      plainLoad (clean_youtube_url url) = .ok (d :: ds) →
      get_transcript_async richLoad plainLoad url =
        { success := true, transcript := some (pyStrip d.page_content),
          video_title := some unknownStr, author := some unknownStr,
          video_id := extract_video_id url, error := none }) ∧
    (loaderFails (richLoad (clean_youtube_url url)) →
      loaderFails (plainLoad (clean_youtube_url url)) →
      (get_transcript_async richLoad plainLoad url).success = false ∧
      ∃ m, (get_transcript_async richLoad plainLoad url).error = some m ∧ m ≠ []) := by
  constructor
  · intro d ds hrich hplain
    rcases hrich with hr | ⟨e, hr⟩ <;>
      simp [get_transcript_async, hr, hplain]
  · intro hrich hplain
    rcases hrich with hr | ⟨e, hr⟩ <;> rcases hplain with hp | ⟨e2, hp⟩ <;>
      simp [get_transcript_async, hr, hp, pyStr]

theorem c4_witness :
    get_transcript_async loadBoom richOk urlW =
      { success := true,
        transcript := some (pyStr "Hello there. This is a talk about AI."),
        video_title := some unknownStr, author := some unknownStr,
        video_id := some (pyStr "abc123"), error := none } :=
  (c4_retriever_fallback loadBoom richOk urlW).1 docHello []
    (Or.inr ⟨pyStr "no captions", rfl⟩) rfl

/-- Every successful return of the pipeline body is either the success record
(`success = true`) or the early transcript-failure record, whose sequence
fields are empty and whose `error` is set. -/
theorem analyzeBody_ok_shape
    (richLoad plainLoad : PyStr → Except PyStr (List Doc))
    (llm : PyStr → Except PyStr PyStr) (jsonLoads : PyStr → Option JsonVal)
    (youtube_url : PyStr) (r : AnalysisResponse)
    (hb : analyzeBody richLoad plainLoad llm jsonLoads youtube_url = .ok r) :
    r.success = true ∨
    (r.transcript_chunks = [] ∧ r.topics = [] ∧ r.insights = [] ∧
     r.summary = [] ∧ ∃ m, r.error = some m) := by
  unfold analyzeBody at hb
  dsimp only at hb
  repeat' split at hb
  all_goals first
    | exact Except.noConfusion hb
    | (injection hb with hb; subst hb; simp)

/-- Claim C3 counterexample: the claim requires every `success=false` result to
carry a non-empty error message, but the model backend may raise an exception
whose message is empty (`str(Exception()) == ""`); `analyze` then returns
`success=false` with `error` equal to that empty string. -/
theorem c3_counterexample :
    (analyze richOk richOk llmEmptyErr noLoads urlW AnalysisType.full 1).success = false ∧
    (analyze richOk richOk llmEmptyErr noLoads urlW AnalysisType.full 1).error = some [] :=
  ⟨rfl, rfl⟩

/-- Claim C3 (corrected): every `success=false` result of `analyze` has empty
transcript chunks, topics and insights, an empty summary, and an `error`
field that is set (it is the first failure's message, non-empty except when
an exception with an empty message is raised, as the counterexample shows). -/
theorem c3_failure_invariant
    (richLoad plainLoad : PyStr → Except PyStr (List Doc))
    (llm : PyStr → Except PyStr PyStr) (jsonLoads : PyStr → Option JsonVal)
    (youtube_url : PyStr) (mode : AnalysisType) (elapsed : Nat)
    (h : (analyze richLoad plainLoad llm jsonLoads youtube_url mode elapsed).success = false) :
    (analyze richLoad plainLoad llm jsonLoads youtube_url mode elapsed).transcript_chunks = [] ∧
    (analyze richLoad plainLoad llm jsonLoads youtube_url mode elapsed).topics = [] ∧
    (analyze richLoad plainLoad llm jsonLoads youtube_url mode elapsed).insights = [] ∧
    (analyze richLoad plainLoad llm jsonLoads youtube_url mode elapsed).summary = [] ∧
    (analyze richLoad plainLoad llm jsonLoads youtube_url mode elapsed).error ≠ none := by
  revert h
  unfold analyze analyzeResult
  cases hb : analyzeBody richLoad plainLoad llm jsonLoads youtube_url with
  | error e => intro h; simp
  | ok r =>
    intro h
    rcases analyzeBody_ok_shape richLoad plainLoad llm jsonLoads youtube_url r hb
      with hs | ⟨h1, h2, h3, h4, m, h5⟩
    · simp [hs] at h
    · simp [h1, h2, h3, h4, h5]

theorem c3_witness :
    (analyze loadBoom loadBoom llmBoom noLoads urlW AnalysisType.full 2).transcript_chunks = [] ∧
    (analyze loadBoom loadBoom llmBoom noLoads urlW AnalysisType.full 2).topics = [] ∧
    (analyze loadBoom loadBoom llmBoom noLoads urlW AnalysisType.full 2).insights = [] ∧
    (analyze loadBoom loadBoom llmBoom noLoads urlW AnalysisType.full 2).summary = [] ∧
    (analyze loadBoom loadBoom llmBoom noLoads urlW AnalysisType.full 2).error ≠ none :=
  c3_failure_invariant loadBoom loadBoom llmBoom noLoads urlW AnalysisType.full 2 rfl

/-! ## Chunker lemmas -/

/-- Chunk indices emitted by the loop are consecutive starting at `idx`. -/
theorem split_loop_index (max_len : Nat) :
    ∀ (sents : List PyStr) (current : PyStr) (idx : Nat),
      (split_loop max_len sents current idx).map (·.index) =
        List.range' idx (split_loop max_len sents current idx).length := by
  intro sents
  induction sents with
  | nil =>
    intro current idx
    by_cases h : current = [] <;> simp [split_loop, h, List.range']
  | cons s rest ih =>
    intro current idx
    rw [split_loop]
    split_ifs with h1 h2 h3
    · exact ih _ _
    · exact ih _ _
    · exact ih _ _
    · rw [List.map_cons, List.length_cons, ih]
      rfl

/-- Head of `dropWhile p` never satisfies `p`. -/
theorem head?_dropWhile_false (p : Char → Bool) :
    ∀ (l : PyStr) (c : Char), (l.dropWhile p).head? = some c → p c = false := by
  intro l
  induction l with
  | nil => simp [List.dropWhile]
  | cons a l ih =>
    intro c h
    rw [List.dropWhile_cons] at h
    by_cases hp : p a
    · rw [if_pos hp] at h
      exact ih c h
    · rw [if_neg hp] at h
      simp at h
      subst h
      exact Bool.eq_false_iff.mpr hp

theorem noTrailSpace_tail (c : Char) (rest : PyStr)
    (h : noTrailSpace (c :: rest)) : noTrailSpace rest := by
  intro d hd
  apply h
  cases rest with
  | nil => simp at hd
  | cons b l => rw [List.getLast?_cons_cons]; exact hd

theorem noTrailSpace_pyStrip (t : PyStr) : noTrailSpace (pyStrip t) := by
  intro c hc
  unfold pyStrip at hc
  rw [List.getLast?_reverse] at hc
  exact head?_dropWhile_false isPySpace _ c hc

/-- Splitting always yields at least one piece. -/
theorem reSplitAux_ne_nil :
    ∀ (cs : PyStr) (mode : Bool) (acc : PyStr), reSplitAux mode acc cs ≠ [] := by
  intro cs
  induction cs with
  | nil => intro mode acc; cases mode <;> simp [reSplitAux]
  | cons c rest ih =>
    intro mode acc
    cases mode with
    | true =>
      rw [reSplitAux]
      split
      · exact ih true acc
      · exact ih false [c]
    | false =>
      rw [reSplitAux]
      split
      · exact List.cons_ne_nil _ _
      · exact ih false (c :: acc)

/-- On input with no trailing whitespace, every piece produced by the
splitter is non-empty (empty pieces would only arise from an empty input or
a separator at the very end of the string). -/
theorem reSplitAux_pieces_ne_nil :
    ∀ (cs : PyStr), noTrailSpace cs →
      (∀ acc, acc ≠ [] → ∀ p ∈ reSplitAux false acc cs, p ≠ []) ∧
      (cs ≠ [] → ∀ p ∈ reSplitAux false [] cs, p ≠ []) ∧
      (cs ≠ [] → ∀ p ∈ reSplitAux true [] cs, p ≠ []) := by
  intro cs
  induction cs with
  | nil =>
    intro _
    refine ⟨?_, by simp, by simp⟩
    intro acc hacc p hp
    simp [reSplitAux] at hp
    subst hp
    simpa using hacc
  | cons c rest ih =>
    intro hnt
    have hntr : noTrailSpace rest := noTrailSpace_tail c rest hnt
    obtain ⟨ih1, ih2, ih3⟩ := ih hntr
    have hrest_ne : isPySpace c = true → rest ≠ [] := by
      intro hc hre
      subst hre
      have hlast := hnt c (by simp)
      rw [hlast] at hc
      exact Bool.noConfusion hc
    refine ⟨?_, ?_, ?_⟩
    · intro acc hacc p hp
      rw [reSplitAux] at hp
      by_cases hg : (sentEndHead acc && isPySpace c) = true
      · rw [if_pos hg] at hp
        rcases List.mem_cons.mp hp with hpe | hpm
        · subst hpe; simpa using hacc
        · simp only [Bool.and_eq_true] at hg
          exact ih3 (hrest_ne hg.2) p hpm
      · rw [if_neg hg] at hp
        exact ih1 (c :: acc) (by simp) p hp
    · intro _ p hp
      rw [reSplitAux] at hp
      have hg : (sentEndHead [] && isPySpace c) = false := by simp [sentEndHead]
      rw [hg] at hp
      simp only [Bool.false_eq_true, if_false] at hp
      exact ih1 [c] (by simp) p hp
    · intro _ p hp
      rw [reSplitAux] at hp
      by_cases hc : isPySpace c = true
      · rw [if_pos hc] at hp
        exact ih3 (hrest_ne hc) p hp
      · rw [if_neg hc] at hp
        exact ih1 [c] (by simp) p hp

theorem joinSp_cons_cons (x y : PyStr) (l : List PyStr) :
    joinSp (x :: y :: l) = x ++ ' ' :: joinSp (y :: l) := rfl

theorem joinSp_cons_of_ne_nil (a : PyStr) (l : List PyStr) (h : l ≠ []) :
    joinSp (a :: l) = a ++ ' ' :: joinSp l := by
  cases l with
  | nil => exact absurd rfl h
  | cons b m => rfl

theorem joinSp_glue (a b : PyStr) (l : List PyStr) :
    joinSp ((a ++ ' ' :: b) :: l) = a ++ ' ' :: joinSp (b :: l) := by
  cases l with
  | nil => rfl
  | cons x m =>
    rw [joinSp_cons_cons, joinSp_cons_cons]
    simp [List.append_assoc]

/-- Joining the loop's chunks with single spaces restores the single-space
join of the pending buffer and the remaining sentences (all non-empty). -/
theorem split_loop_join (max_len : Nat) :
    ∀ (sents : List PyStr), (∀ s ∈ sents, s ≠ []) →
      ∀ (current : PyStr) (idx : Nat), current ≠ [] →
        joinSp ((split_loop max_len sents current idx).map (·.text)) =
          joinSp (current :: sents) ∧
        split_loop max_len sents current idx ≠ [] := by
  intro sents
  induction sents with
  | nil =>
    intro _ current idx hc
    rw [split_loop, if_neg hc]
    exact ⟨rfl, by simp⟩
  | cons s rest ih =>
    intro hne current idx hc
    have hs : s ≠ [] := hne s (by simp)
    have hrest : ∀ x ∈ rest, x ≠ [] := fun x hx => hne x (by simp [hx])
    rw [split_loop]
    simp only [if_neg hc]
    split_ifs with h1
    · obtain ⟨hj, hnn⟩ := ih hrest (current ++ [' '] ++ s) idx (by simp)
      constructor
      · rw [hj, show current ++ [' '] ++ s = current ++ ' ' :: s by simp,
          joinSp_glue, joinSp_cons_cons]
      · exact hnn
    · obtain ⟨hj, hnn⟩ := ih hrest s (idx + 1) hs
      constructor
      · rw [List.map_cons,
          joinSp_cons_of_ne_nil current _ (by simpa using hnn), hj, joinSp_cons_cons]
      · simp

/-- With an empty buffer, the loop absorbs the first sentence into the buffer
with no space and emits nothing, in both branches of the fit test. -/
theorem split_loop_cons_nil (max_len : Nat) (s : PyStr) (rest : List PyStr) (idx : Nat) :
    split_loop max_len (s :: rest) [] idx = split_loop max_len rest s idx := by
  rw [split_loop]
  simp

/-- Single-space joining of the chunk texts restores the single-space joining
of the sentence pieces, for every input text. -/
theorem split_transcript_join (t : PyStr) (max_len : Nat) :
    joinSp ((split_transcript t max_len).map (·.text)) =
      joinSp (re_split_sentences (pyStrip t)) := by
  unfold split_transcript
  by_cases h : pyStrip t = []
  · rw [h]
    rw [show re_split_sentences ([] : PyStr) = [[]] from rfl]
    rw [split_loop, if_pos (by simp)]
    rw [show (([] : PyStr) ++ (if ([] : PyStr) = [] then [] else [' ']) ++ []) = [] by simp]
    rw [split_loop, if_pos rfl]
    rfl
  · obtain ⟨s, rest, hsr⟩ : ∃ s rest, re_split_sentences (pyStrip t) = s :: rest := by
      cases hq : re_split_sentences (pyStrip t) with
      | nil => exact absurd hq (reSplitAux_ne_nil _ _ _)
      | cons a l => exact ⟨a, l, rfl⟩
    have hne : ∀ p ∈ re_split_sentences (pyStrip t), p ≠ [] :=
      (reSplitAux_pieces_ne_nil (pyStrip t) (noTrailSpace_pyStrip t)).2.1 h
    rw [hsr, split_loop_cons_nil]
    have hs : s ≠ [] := hne s (by rw [hsr]; simp)
    have hrest : ∀ x ∈ rest, x ≠ [] := fun x hx => hne x (by rw [hsr]; simp [hx])
    exact (split_loop_join max_len rest hrest s 0 hs).1

/-- Loop invariant for the length bound: the pending buffer is empty, within
`max_len + 1`, or a single (possibly oversized) sentence; every emitted chunk
is within `max_len + 1` or is a single oversized sentence. -/
theorem split_loop_bound (max_len : Nat) (S : List PyStr) :
    ∀ (sents : List PyStr), (∀ s ∈ sents, s ∈ S) →
      ∀ (current : PyStr) (idx : Nat),
        (current = [] ∨ current.length ≤ max_len + 1 ∨ current ∈ S) →
        ∀ c ∈ split_loop max_len sents current idx,
          c.text.length ≤ max_len + 1 ∨ (c.text ∈ S ∧ max_len < c.text.length) := by
  intro sents
  induction sents with
  | nil =>
    intro _ current idx hinv c hc
    rw [split_loop] at hc
    by_cases h : current = []
    · rw [if_pos h] at hc; simp at hc
    · rw [if_neg h] at hc
      simp at hc
      subst hc
      dsimp only
      rcases hinv with h0 | hle | hmem
      · exact absurd h0 h
      · exact Or.inl hle
      · by_cases hlen : current.length ≤ max_len + 1
        · exact Or.inl hlen
        · exact Or.inr ⟨hmem, by omega⟩
  | cons s rest ih =>
    intro hmem current idx hinv c hc
    have hsS : s ∈ S := hmem s (by simp)
    have hrestS : ∀ x ∈ rest, x ∈ S := fun x hx => hmem x (by simp [hx])
    by_cases h0 : current = []
    · subst h0
      rw [split_loop_cons_nil] at hc
      exact ih hrestS s idx (Or.inr (Or.inr hsS)) c hc
    · rw [split_loop] at hc
      simp only [if_neg h0] at hc
      split_ifs at hc with h1
      · refine ih hrestS _ idx ?_ c hc
        right; left
        simp only [List.length_append, List.length_cons, List.length_nil]
        omega
      · rcases List.mem_cons.mp hc with hce | hcm
        · subst hce
          dsimp only
          rcases hinv with hz | hle | hm
          · exact absurd hz h0
          · exact Or.inl hle
          · by_cases hlen : current.length ≤ max_len + 1
            · exact Or.inl hlen
            · exact Or.inr ⟨hm, by omega⟩
        · exact ih hrestS s (idx + 1) (Or.inr (Or.inr hsS)) c hcm

/-- Claim C5 counterexample: with maxLength 5 the text "ab. c." (two sentences
"ab." and "c.") produces the single chunk "ab. c." of length 6 > 5, which is
not a single sentence — the fit test `len(current) + len(s) <= max_len` does
not count the joining space, so a multi-sentence chunk can exceed maxLength. -/
theorem c5_counterexample :
    ¬ (∀ c ∈ split_transcript (pyStr "ab. c.") 5,
        c.text.length ≤ 5 ∨ c.text ∈ re_split_sentences (pyStrip (pyStr "ab. c."))) := by
  decide

/-- Claim C5 (corrected): every chunk has text of length at most maxLength + 1
(the joining space is not counted by the fit test, giving a one-character
overshoot), except a chunk that is a single sentence whose own length exceeds
maxLength, which is emitted as its own oversized chunk and never split
mid-sentence. -/
theorem c5_chunk_bound (t : PyStr) (max_len : Nat) (hL : 0 < max_len) :
    ∀ c ∈ split_transcript t max_len,
      c.text.length ≤ max_len + 1 ∨
      (c.text ∈ re_split_sentences (pyStrip t) ∧ max_len < c.text.length) := by
  intro c hc
  exact split_loop_bound max_len (re_split_sentences (pyStrip t))
    (re_split_sentences (pyStrip t)) (fun s hs => hs) [] 0 (Or.inl rfl) c hc

theorem c5_witness :
    (⟨0, pyStr "Hello there."⟩ : TranscriptChunk).text.length ≤ 12 + 1 ∨
    ((⟨0, pyStr "Hello there."⟩ : TranscriptChunk).text ∈
        re_split_sentences (pyStrip (pyStr "Hello there. Nice day.")) ∧
      12 < (⟨0, pyStr "Hello there."⟩ : TranscriptChunk).text.length) :=
  c5_chunk_bound (pyStr "Hello there. Nice day.") 12 (by decide)
    ⟨0, pyStr "Hello there."⟩ (by decide)

/-- Claim C6 (confirmed): chunk indices form the contiguous sequence 0,1,2,...
in list order; rejoining the chunk texts with single spaces reproduces the
single-space rejoining of the sentences of T in original order (no loss
beyond whitespace normalization, no overlap); empty input yields no chunks. -/
theorem c6_chunk_order_cover (t : PyStr) (max_len : Nat) (hL : 0 < max_len) :
    (split_transcript t max_len).map (·.index) =
      List.range (split_transcript t max_len).length ∧
    joinSp ((split_transcript t max_len).map (·.text)) =
      joinSp (re_split_sentences (pyStrip t)) ∧
    (t = [] → split_transcript t max_len = []) := by
  refine ⟨?_, split_transcript_join t max_len, ?_⟩
  · rw [List.range_eq_range']
    exact split_loop_index max_len _ [] 0
  · intro h
    subst h
    show split_loop max_len (re_split_sentences (pyStrip [])) [] 0 = []
    rw [show re_split_sentences (pyStrip ([] : PyStr)) = [[]] from rfl]
    rw [split_loop, if_pos (by simp)]
    rw [show (([] : PyStr) ++ (if ([] : PyStr) = [] then [] else [' ']) ++ []) = []
      by simp]
    rw [split_loop, if_pos rfl]

theorem c6_witness :
    (split_transcript (pyStr "One. Two. Three.") 9).map (·.index) =
      List.range (split_transcript (pyStr "One. Two. Three.") 9).length ∧
    joinSp ((split_transcript (pyStr "One. Two. Three.") 9).map (·.text)) =
      joinSp (re_split_sentences (pyStrip (pyStr "One. Two. Three."))) ∧
    (pyStr "One. Two. Three." = [] → split_transcript (pyStr "One. Two. Three.") 9 = []) :=
  c6_chunk_order_cover (pyStr "One. Two. Three.") 9 (by decide)
